import Mathlib

/-
  Verification development for the domain-model core of the
  spicybyte/nautilus_trader repository.

  Shallow embedding notes:
  * Python `Decimal` prices are modelled as exact rationals (`ℚ`); the
    factory `Price.create` additionally records the decimal scale, so a
    produced value is a pair (unscaled integer, scale) exactly as a
    Python `Decimal` stores it.
  * `datetime` values are modelled by their UNIX-nanosecond image under
    `dt_to_unix_nanos` (an `Int`), which is the only thing the code
    inspects.
  * Constructors that raise `ValueError` via `Precondition`/`Condition`
    checks are modelled as functions into `Except String _`; on the
    `.ok` path the record fields are stored exactly as in the source.
  * Python `hash` of built-in values is an opaque deterministic function
    of the value; it is modelled by concrete functions (`strHash`, ...)
    whose only property used is that they are functions of their
    argument, which is all the claims need.
-/

deriving instance DecidableEq for Except

namespace Nautilus

/-- A generic success test for the `Except`-modelled constructors. -/
def isOkE {α : Type} (e : Except String α) : Bool :=
  match e with
  | Except.ok _ => true
  | Except.error _ => false

/-- Model of Python string hashing: a deterministic function of the
characters.  The exact mixing constants are irrelevant to every claim;
what matters is that the hash depends only on the hashed string. -/
def strHash (l : List Char) : Nat :=
  l.foldl (fun h c => h * 131 + c.toNat) 7

/-- Model of Python tuple hashing for pairs. -/
def pairHash (a b : Nat) : Nat :=
  a * 1000003 + b

/-- Uppercasing as performed by `str.upper()` (ASCII letters, which is
what instrument codes consist of). -/
def strUpper (s : String) : String :=
  String.mk (s.data.map Char.toUpper)

/-- A venue, compared (like a Python enum member) by its name. -/
structure Venue where
  name : String
deriving DecidableEq, Repr

/-- Model of `Symbol` from `objects.pyx`: an uppercased code plus a venue. -/
structure Symbol where
  code : String
  venue : Venue
deriving DecidableEq, Repr

/-- Embedding of `Symbol.__init__`: requires a valid (non-empty) code string, stores
`code.upper()` and the venue. -/
def symbolCreate (code : String) (venue : Venue) : Except String Symbol :=
  if code = "" then Except.error "code was not a valid string"
  else Except.ok { code := strUpper code, venue := venue }

/-- Embedding of `Symbol.__eq__`: structural comparison of code and venue. -/
def symbolBeq (a b : Symbol) : Bool :=
  decide (a.code = b.code) && decide (a.venue = b.venue)

/-- Embedding of `Symbol.__hash__`: `hash((self.code, self.venue))`. -/
def symbolHash (s : Symbol) : Nat :=
  pairHash (strHash s.code.data) (strHash s.venue.name.data)

/-- Embedding of `Symbol.__str__`: `f"{self.code}.{self.venue.name}"`. -/
def symbolStr (s : Symbol) : String :=
  s.code ++ "." ++ s.venue.name

/-- Model of `Tick` from `objects.pyx`. -/
structure Tick where
  symbol : Symbol
  bid : ℚ
  ask : ℚ
  timestamp : Int
deriving DecidableEq, Repr

/-- Embedding of `Tick.__init__`: requires `bid > 0` and `ask > 0` (in that order);
no relationship between `ask` and `bid` is checked. -/
def tickCreate (symbol : Symbol) (bid ask : ℚ) (timestamp : Int) :
    Except String Tick :=
  if ¬ (0 < bid) then Except.error "bid was not positive"
  else if ¬ (0 < ask) then Except.error "ask was not positive"
  else Except.ok { symbol := symbol, bid := bid, ask := ask, timestamp := timestamp }

/-- Model of `Bar` from `objects.pyx`.  `open` is a Lean keyword, so the fields
use the constructor parameter names from the source. -/
structure Bar where
  open_price : ℚ
  high_price : ℚ
  low_price : ℚ
  close_price : ℚ
  volume : Int
  timestamp : Int
deriving DecidableEq, Repr

/-- Embedding of `Bar.__init__` preconditions, in source order: the four prices are
positive, the volume non-negative, `high >= low`, `high >= close`,
`low <= close`.  The open price is checked for positivity only. -/
def barCreate (open_price high_price low_price close_price : ℚ)
    (volume : Int) (timestamp : Int) : Except String Bar :=
  if ¬ (0 < open_price) then Except.error "open_price was not positive"
  else if ¬ (0 < high_price) then Except.error "high_price was not positive"
  else if ¬ (0 < low_price) then Except.error "low_price was not positive"
  else if ¬ (0 < close_price) then Except.error "close_price was not positive"
  else if ¬ (0 ≤ volume) then Except.error "volume was negative"
  else if ¬ (low_price ≤ high_price) then Except.error "high_price >= low_price"
  else if ¬ (close_price ≤ high_price) then Except.error "high_price >= close_price"
  else if ¬ (low_price ≤ close_price) then Except.error "low_price <= close_price"
  else Except.ok
    { open_price := open_price, high_price := high_price
      low_price := low_price, close_price := close_price
      volume := volume, timestamp := timestamp }

/-- Embedding of `Bar.__eq__`: compares the timestamps only. -/
def barBeq (a b : Bar) : Bool :=
  decide (a.timestamp = b.timestamp)

/-- Fuel-indexed decimal rendering of a natural number; any fuel above
the number itself is sufficient. -/
def natToCharsAux : Nat → Nat → List Char
  | 0, _ => []
  | fuel + 1, n =>
    if n < 10 then [Nat.digitChar n]
    else natToCharsAux fuel (n / 10) ++ [Nat.digitChar (n % 10)]

/-- Decimal digit characters of a natural number (the embedding of the
`f"{n}"` rendering used when formatting). -/
def natToChars (n : Nat) : List Char :=
  natToCharsAux (n + 1) n

/-- Character rendering of an `Int` timestamp (stands in for
`str(self.timestamp)`; injective on the modelled timestamps). -/
def tsChars (t : Int) : List Char :=
  if t < 0 then Char.ofNat 45 :: natToChars t.natAbs else natToChars t.natAbs

/-- Embedding of `Bar.__hash__`: `hash(str(self.timestamp))`. -/
def barHash (b : Bar) : Nat :=
  strHash (tsChars b.timestamp)

/-- Model of `OrderSide` for a constructed order. -/
inductive OrderSide where
  | BUY
  | SELL
deriving DecidableEq, Repr

/-- Model of the `TimeInForce` members referenced by the order code. -/
inductive TimeInForce where
  | GTC
  | IOC
  | FOK
  | GTD
  | DAY
  | AT_THE_OPEN
  | AT_THE_CLOSE
deriving DecidableEq, Repr

/-- Model of the `TriggerType` members referenced by the order code (`NONE` is the
null sentinel rejected at construction). -/
inductive TriggerType where
  | NONE
  | DEFAULT
  | BID_ASK
  | LAST
  | MID_POINT
  | MARK
deriving DecidableEq, Repr

/-- Model of `Quantity`: a fixed-precision decimal quantity, modelled as its
exact rational value plus its declared precision. -/
structure Quantity where
  value : ℚ
  precision : Nat
deriving DecidableEq, Repr

/-- The GTD/expire-time gate of `LimitIfTouchedOrder.__init__`:
`expire_time_ns` starts at 0; when `time_in_force == GTD` the
`expire_time` must be present and its nanosecond image must be `> 0`;
otherwise `expire_time` must be absent.  `expire_time` is modelled by
its `dt_to_unix_nanos` image. -/
def checkExpire (time_in_force : TimeInForce) (expire_time : Option Int) :
    Except String Int :=
  if time_in_force = TimeInForce.GTD then
    match expire_time with
    | none => Except.error "expire_time was None"
    | some t =>
      if 0 < t then Except.ok t
      else Except.error "expire_time cannot be <= UNIX epoch"
  else
    match expire_time with
    | some _ => Except.error "expire_time was not None"
    | none => Except.ok 0

/-- The display-quantity gate of `LimitIfTouchedOrder.__init__`:
`display_qty is None or 0 <= display_qty <= quantity`. -/
def displayQtyOk (display_qty : Option Quantity) (quantity : Quantity) : Bool :=
  match display_qty with
  | none => true
  | some d => decide (0 ≤ d.value) && decide (d.value ≤ quantity.value)

/-- The fields of a constructed `LimitIfTouchedOrder` relevant to the
claims (identifier fields and the event plumbing carry no logic). -/
structure LitOrder where
  side : OrderSide
  quantity : Quantity
  price : ℚ
  trigger_price : ℚ
  trigger_type : TriggerType
  time_in_force : TimeInForce
  expire_time : Option Int
  expire_time_ns : Int
  display_qty : Option Quantity
deriving DecidableEq, Repr

/-- Embedding of the `LimitIfTouchedOrder.__init__` validation, in source order:
`trigger_type != NONE`, then the GTD/expire-time gate, then the
display-quantity gate; on success the fields are stored unchanged and
`expire_time_ns` is the computed value (0 unless GTD). -/
def litInit (side : OrderSide) (quantity : Quantity) (price trigger_price : ℚ)
    (trigger_type : TriggerType) (time_in_force : TimeInForce)
    (expire_time : Option Int) (display_qty : Option Quantity) :
    Except String LitOrder :=
  if trigger_type = TriggerType.NONE then
    Except.error "trigger_type was equal to NONE"
  else
    match checkExpire time_in_force expire_time with
    | Except.error e => Except.error e
    | Except.ok ns =>
      if displayQtyOk display_qty quantity then
        Except.ok
          { side := side, quantity := quantity, price := price
            trigger_price := trigger_price, trigger_type := trigger_type
            time_in_force := time_in_force, expire_time := expire_time
            expire_time_ns := ns, display_qty := display_qty }
      else
        Except.error "display_qty was negative or greater than order quantity"

/-- The mutable projection of an order that `_updated` and
`_set_slippage` act on. -/
structure LitOrderState where
  side : OrderSide
  venue_order_id : Option String
  venue_order_ids : List (Option String)
  quantity : Quantity
  filled_qty : Quantity
  leaves_qty : Quantity
  price : ℚ
  trigger_price : ℚ
  avg_px : ℚ
  slippage : ℚ
deriving DecidableEq, Repr

/-- The fields of an `OrderUpdated` event that `_updated` reads. -/
structure OrderUpdated where
  venue_order_id : Option String
  quantity : Option Quantity
  price : Option ℚ
  trigger_price : Option ℚ
  ts_event : Int
deriving DecidableEq, Repr

/-- Embedding of `LimitIfTouchedOrder._updated`: replace `venue_order_id` (appending
the prior one to `_venue_order_ids` when it differs), then replace
`quantity` (recomputing `leaves_qty = quantity - filled_qty` at the new
quantity's precision), `price` and `trigger_price` when present. -/
def litUpdated (s : LitOrderState) (e : OrderUpdated) : LitOrderState :=
  let s1 :=
    if s.venue_order_id ≠ e.venue_order_id then
      { s with venue_order_ids := s.venue_order_ids ++ [s.venue_order_id]
               venue_order_id := e.venue_order_id }
    else s
  let s2 :=
    match e.quantity with
    | some q =>
      { s1 with quantity := q
                leaves_qty := { value := q.value - s1.filled_qty.value
                                precision := q.precision } }
    | none => s1
  let s3 :=
    match e.price with
    | some p => { s2 with price := p }
    | none => s2
  match e.trigger_price with
  | some tp => { s3 with trigger_price := tp }
  | none => s3

/-- Embedding of `LimitIfTouchedOrder._set_slippage`: `avg_px - price` for a BUY,
`price - avg_px` for a SELL. -/
def setSlippage (s : LitOrderState) : LitOrderState :=
  match s.side with
  | OrderSide.BUY => { s with slippage := s.avg_px - s.price }
  | OrderSide.SELL => { s with slippage := s.price - s.avg_px }

/-- A Python `Decimal`: an unscaled integer together with a decimal
scale (number of fractional digits); its numeric value is
`unscaled / 10 ^ scale`. -/
structure Dec where
  unscaled : Int
  scale : Nat
deriving DecidableEq, Repr

/-- The numeric value of a `Dec`. -/
def decVal (d : Dec) : ℚ :=
  (d.unscaled : ℚ) / (10 : ℚ) ^ d.scale

/-- Python `Decimal.__eq__`: numeric comparison (scales are compared
only through the values), via cross multiplication. -/
def decBeq (a b : Dec) : Bool :=
  decide (a.unscaled * (10 : Int) ^ b.scale = b.unscaled * (10 : Int) ^ a.scale)

/-- Round the fraction `a / b` (with `b > 0`) to the nearest integer,
ties to even (the rounding of Python's `round` and of `format`, applied
by `Price.create`); phrased in integer arithmetic on the floor `f` and
remainder `r = a - f * b`. -/
def roundHalfEvenInt (a b : Int) : Int :=
  let f := a.fdiv b
  let r := a - f * b
  if 2 * r < b then f
  else if b < 2 * r then f + 1
  else if f % 2 = 0 then f else f + 1

/-- Python's numeric hash restricted to `Decimal`: a function of the
numeric value alone (equal numbers hash equal), modelled concretely on
the reduced rational. -/
def decHash (d : Dec) : Nat :=
  pairHash (2 * (decVal d).num.natAbs + (if (decVal d).num < 0 then 1 else 0))
    (decVal d).den

/-- Embedding of `Price.create(price, decimals)` from `objects.pyx`: requires
`price > 0` (`decimals >= 0` holds by the `Nat` type); returns the
`Decimal` carrying `price` rounded half-even to `decimals` fractional
digits.  The float argument is modelled as the exact rational it
denotes. -/
def priceCreate (price : ℚ) (decimals : Nat) : Except String Dec :=
  if 0 < price then
    Except.ok
      { unscaled := roundHalfEvenInt (price.num * ((10 ^ decimals : Nat) : Int)) price.den
        scale := decimals }
  else Except.error "price was not positive"

/-- Model of the `Resolution` members from `enums.py` as referenced by the code. -/
inductive Resolution where
  | TICK
  | SECOND
  | MINUTE
  | HOUR
  | DAY
deriving DecidableEq, Repr

/-- Model of the `QuoteType` members from `enums.py` as referenced by the code. -/
inductive QuoteType where
  | BID
  | ASK
  | MID
  | LAST
deriving DecidableEq, Repr

/-- The `.name` of a `Resolution` member. -/
def resolutionName (r : Resolution) : String :=
  match r with
  | Resolution.TICK => "TICK"
  | Resolution.SECOND => "SECOND"
  | Resolution.MINUTE => "MINUTE"
  | Resolution.HOUR => "HOUR"
  | Resolution.DAY => "DAY"

/-- The `.name` of a `QuoteType` member. -/
def quoteTypeName (q : QuoteType) : String :=
  match q with
  | QuoteType.BID => "BID"
  | QuoteType.ASK => "ASK"
  | QuoteType.MID => "MID"
  | QuoteType.LAST => "LAST"

/-- Model of `BarType` from `objects.pyx` (period is validated positive by the
constructor; it is carried here as a `Nat` with positivity stated where
needed). -/
structure BarType where
  symbol : Symbol
  period : Nat
  resolution : Resolution
  quote_type : QuoteType
deriving DecidableEq, Repr

/-- Embedding of `BarType.__str__`:
`f"{str(self.symbol)}-{self.period}-{self.resolution.name}[{self.quote_type.name}]"`. -/
def formatBarType (bt : BarType) : String :=
  symbolStr bt.symbol ++ "-" ++ String.mk (natToChars bt.period) ++ "-" ++
    resolutionName bt.resolution ++ "[" ++ quoteTypeName bt.quote_type ++ "]"

/-- Split a character list at every occurrence of `sep` (the embedding
of `str.split`); always returns at least one segment. -/
def splitOnChar (sep : Char) : List Char → List (List Char)
  | [] => [[]]
  | c :: cs =>
    match splitOnChar sep cs with
    | [] => [[]]
    | h :: t => if c = sep then [] :: h :: t else (c :: h) :: t

/-- The digit value of an ASCII digit character. -/
def charToDigit (c : Char) : Option Nat :=
  if 48 ≤ c.toNat ∧ c.toNat ≤ 57 then some (c.toNat - 48) else none

/-- Accumulating decimal reading of a digit string. -/
def charsToNatAux (acc : Nat) : List Char → Option Nat
  | [] => some acc
  | c :: cs =>
    match charToDigit c with
    | some d => charsToNatAux (acc * 10 + d) cs
    | none => none

/-- Decimal reading of a non-empty digit string. -/
def charsToNat (l : List Char) : Option Nat :=
  if l = [] then none else charsToNatAux 0 l

/-- Name-to-member lookup for `Resolution`. -/
def resolutionFromName (s : String) : Option Resolution :=
  if s = "TICK" then some Resolution.TICK
  else if s = "SECOND" then some Resolution.SECOND
  else if s = "MINUTE" then some Resolution.MINUTE
  else if s = "HOUR" then some Resolution.HOUR
  else if s = "DAY" then some Resolution.DAY
  else none

/-- Name-to-member lookup for `QuoteType`. -/
def quoteTypeFromName (s : String) : Option QuoteType :=
  if s = "BID" then some QuoteType.BID
  else if s = "ASK" then some QuoteType.ASK
  else if s = "MID" then some QuoteType.MID
  else if s = "LAST" then some QuoteType.LAST
  else none

/-- Modelled from the spec: the source defines no `BarType` parser (only
`__str__`); the spec requires parsing to be the exact inverse of
formatting, so this parses exactly the string form that
`BarType.__str__` actually produces:
`"<CODE>.<VENUE>-<period>-<RESOLUTION>[<QUOTETYPE>]"`. -/
def parseBarTypeChars (cs : List Char) : Option BarType :=
  match splitOnChar '-' cs with
  | [symSeg, perSeg, tailSeg] =>
    match splitOnChar '.' symSeg with
    | [codeSeg, venueSeg] =>
      match charsToNat perSeg with
      | some p =>
        if 0 < p then
          match splitOnChar '[' tailSeg with
          | [resSeg, qtSeg] =>
            match qtSeg.getLast? with
            | some c =>
              if c = ']' then
                match resolutionFromName (String.mk resSeg),
                      quoteTypeFromName (String.mk qtSeg.dropLast) with
                | some r, some qt =>
                  some { symbol := { code := String.mk codeSeg
                                     venue := { name := String.mk venueSeg } }
                         period := p, resolution := r, quote_type := qt }
                | _, _ => none
              else none
            | none => none
          | _ => none
        else none
      | none => none
    | _ => none
  | _ => none

/-- String-level entry point of the modelled parser. -/
def parseBarType (s : String) : Option BarType :=
  parseBarTypeChars s.data

/-- The canonical form claimed by the spec:
`"<InstrumentId>-<step>-<aggregation>-<price_type>-<source>"`, i.e.
five dash-separated fields whose last is a source tag.  Stated from the
spec's words, for comparison with the string the code produces. -/
def isSpecCanonicalForm (s : String) : Bool :=
  let segs := splitOnChar '-' s.data
  decide (segs.length = 5) &&
    (decide (segs.getLast? = some ("EXTERNAL".data)) ||
      decide (segs.getLast? = some ("INTERNAL".data)))

/-- Claim C1 (corrected): `Bar` construction succeeds exactly when all
four prices are positive, the volume is non-negative, `high >= low`,
`high >= close` and `low <= close`; the open price is NOT constrained to
lie within `[low, high]`.  On success every field is stored unchanged
(no silent adjustment). -/
theorem claim_C1_bar_amended (o h l c : ℚ) (v ts : Int) :
    (isOkE (barCreate o h l c v ts) = true ↔
      (0 < o ∧ 0 < h ∧ 0 < l ∧ 0 < c ∧ 0 ≤ v ∧ l ≤ h ∧ c ≤ h ∧ l ≤ c)) ∧
    (∀ b : Bar, barCreate o h l c v ts = Except.ok b →
      b.open_price = o ∧ b.high_price = h ∧ b.low_price = l ∧
        b.close_price = c ∧ b.volume = v ∧ b.timestamp = ts) := by
  constructor
  · unfold barCreate isOkE
    split_ifs <;> simp_all
  · intro b hb
    unfold barCreate at hb
    split_ifs at hb
    all_goals first
      | exact Except.noConfusion hb
      | (injection hb with hb2
         subst hb2
         exact ⟨rfl, rfl, rfl, rfl, rfl, rfl⟩)

/-- Claim C1 counterexample: a bar whose open price (5) lies strictly
above its high (3) is accepted by the constructor, refuting the claim
that construction succeeds only when `low <= open <= high`. -/
theorem claim_C1_bar_cex :
    barCreate 5 3 1 2 0 0 =
      Except.ok { open_price := 5, high_price := 3, low_price := 1
                  close_price := 2, volume := 0, timestamp := 0 } ∧
    ¬ ((1 : ℚ) ≤ 5 ∧ (5 : ℚ) ≤ 3) := by
  exact ⟨by decide, by decide⟩

/-- Claim C1 witness: a fully valid bar is accepted and its fields are
stored unchanged. -/
theorem claim_C1_bar_witness :
    isOkE (barCreate 2 3 1 2 5 7) = true ∧
    ({ open_price := 2, high_price := 3, low_price := 1, close_price := 2
       volume := 5, timestamp := 7 } : Bar).open_price = 2 :=
  ⟨(claim_C1_bar_amended 2 3 1 2 5 7).1.mpr (by decide),
   ((claim_C1_bar_amended 2 3 1 2 5 7).2 _ (by decide)).1⟩

/-- Claim C8: `Tick` construction succeeds exactly when `bid > 0` and
`ask > 0`; no `ask >= bid` relation is enforced (crossed quotes pass),
and on success the fields are stored unchanged. -/
theorem claim_C8_tick_theorem (sym : Symbol) (bid ask : ℚ) (ts : Int) :
    (isOkE (tickCreate sym bid ask ts) = true ↔ (0 < bid ∧ 0 < ask)) ∧
    (∀ t : Tick, tickCreate sym bid ask ts = Except.ok t →
      t.symbol = sym ∧ t.bid = bid ∧ t.ask = ask ∧ t.timestamp = ts) := by
  constructor
  · unfold tickCreate isOkE
    split_ifs <;> simp_all
  · intro t ht
    unfold tickCreate at ht
    split_ifs at ht
    all_goals first
      | exact Except.noConfusion ht
      | (injection ht with ht2
         subst ht2
         exact ⟨rfl, rfl, rfl, rfl⟩)

/-- Claim C8 witness: a crossed quote (ask 2 < bid 3) is accepted. -/
theorem claim_C8_tick_witness :
    isOkE (tickCreate { code := "A", venue := { name := "V" } } 3 2 0) = true ∧
    (2 : ℚ) < 3 :=
  ⟨(claim_C8_tick_theorem { code := "A", venue := { name := "V" } } 3 2 0).1.mpr
      (by decide),
   by decide⟩

/-- Claim C9: `Bar` equality is determined solely by the timestamp, and
the hash (a function of `str(timestamp)`) agrees on equal timestamps. -/
theorem claim_C9_bar_eq_hash (a b : Bar) :
    (barBeq a b = true ↔ a.timestamp = b.timestamp) ∧
    (a.timestamp = b.timestamp → barHash a = barHash b) := by
  constructor
  · simp [barBeq]
  · intro h
    simp [barHash, h]

/-- Claim C9 witness: two constructed bars with identical timestamps but
different OHLCV data compare equal and hash identically. -/
theorem claim_C9_bar_witness :
    barCreate 1 2 1 2 3 42 =
      Except.ok { open_price := 1, high_price := 2, low_price := 1
                  close_price := 2, volume := 3, timestamp := 42 } ∧
    barCreate 2 4 1 3 5 42 =
      Except.ok { open_price := 2, high_price := 4, low_price := 1
                  close_price := 3, volume := 5, timestamp := 42 } ∧
    barBeq { open_price := 1, high_price := 2, low_price := 1
             close_price := 2, volume := 3, timestamp := 42 }
        { open_price := 2, high_price := 4, low_price := 1
          close_price := 3, volume := 5, timestamp := 42 } = true ∧
    barHash { open_price := 1, high_price := 2, low_price := 1
              close_price := 2, volume := 3, timestamp := 42 } =
      barHash { open_price := 2, high_price := 4, low_price := 1
                close_price := 3, volume := 5, timestamp := 42 } := by
  refine ⟨by decide, by decide, ?_, ?_⟩
  · exact (claim_C9_bar_eq_hash _ _).1.mpr rfl
  · exact (claim_C9_bar_eq_hash _ _).2 rfl

/-- Claim C10: `Symbol` construction uppercases the code; two symbols
built from codes equal up to letter case at the same venue are equal and
hash identically, and the canonical string shows the uppercased code. -/
theorem claim_C10_symbol_theorem (c1 c2 : String) (v : Venue)
    (h1 : c1 ≠ "") (h2 : c2 ≠ "") (h : strUpper c1 = strUpper c2) :
    symbolCreate c1 v = Except.ok { code := strUpper c1, venue := v } ∧
    symbolCreate c2 v = Except.ok { code := strUpper c2, venue := v } ∧
    symbolBeq { code := strUpper c1, venue := v }
        { code := strUpper c2, venue := v } = true ∧
    symbolHash { code := strUpper c1, venue := v } =
      symbolHash { code := strUpper c2, venue := v } ∧
    symbolStr { code := strUpper c1, venue := v } = strUpper c1 ++ "." ++ v.name := by
  refine ⟨?_, ?_, ?_, ?_, ?_⟩ <;>
    simp [symbolCreate, symbolBeq, symbolHash, symbolStr, h1, h2, h]

/-- Claim C10 witness: lowercase and mixed-case spellings of the same
code at one venue produce the same stored symbol. -/
theorem claim_C10_symbol_witness :
    symbolCreate "audusd" { name := "FXCM" } =
      Except.ok { code := "AUDUSD", venue := { name := "FXCM" } } ∧
    symbolBeq { code := "AUDUSD", venue := { name := "FXCM" } }
        { code := "AUDUSD", venue := { name := "FXCM" } } = true ∧
    symbolStr { code := "AUDUSD", venue := { name := "FXCM" } } = "AUDUSD.FXCM" := by
  have hthm := claim_C10_symbol_theorem "audusd" "AudUsd" { name := "FXCM" }
    (by decide) (by decide) (by decide)
  have he : strUpper "audusd" = "AUDUSD" := by decide
  have he2 : strUpper "AudUsd" = "AUDUSD" := by decide
  rw [he, he2] at hthm
  exact ⟨hthm.1, hthm.2.2.1, hthm.2.2.2.2⟩

/-- Claim C4: `_set_slippage` recomputes `slippage = avg_px - price` for
a BUY and `price - avg_px` for a SELL, so positive slippage means the
average fill price was worse than the limit price for the side. -/
theorem claim_C4_slippage (s : LitOrderState) :
    (s.side = OrderSide.BUY →
      (setSlippage s).slippage = s.avg_px - s.price ∧
      (0 < (setSlippage s).slippage ↔ s.price < s.avg_px)) ∧
    (s.side = OrderSide.SELL →
      (setSlippage s).slippage = s.price - s.avg_px ∧
      (0 < (setSlippage s).slippage ↔ s.avg_px < s.price)) := by
  refine ⟨fun hside => ?_, fun hside => ?_⟩ <;>
    simp [setSlippage, hside, sub_pos]

/-- Claim C4 witness: a BUY order with average fill 101 against limit
price 100 has slippage `101 - 100`, positive exactly because the fill
was above the limit. -/
theorem claim_C4_slippage_witness :
    (setSlippage
        { side := OrderSide.BUY, venue_order_id := none, venue_order_ids := []
          quantity := { value := 1, precision := 0 }
          filled_qty := { value := 1, precision := 0 }
          leaves_qty := { value := 0, precision := 0 }
          price := 100, trigger_price := 99, avg_px := 101
          slippage := 0 }).slippage = (101 : ℚ) - 100 ∧
    (0 < (setSlippage
        { side := OrderSide.BUY, venue_order_id := none, venue_order_ids := []
          quantity := { value := 1, precision := 0 }
          filled_qty := { value := 1, precision := 0 }
          leaves_qty := { value := 0, precision := 0 }
          price := 100, trigger_price := 99, avg_px := 101
          slippage := 0 }).slippage ↔ (100 : ℚ) < 101) :=
  (claim_C4_slippage _).1 rfl

/-- Claim C5: `_updated` replaces `venue_order_id` (appending the prior
id to the history exactly when the new id differs, so no prior id is
dropped), replaces `quantity`, `price` and `trigger_price` exactly when
present in the event, and recomputes `leaves_qty = quantity -
filled_qty` whenever the quantity is updated. -/
theorem claim_C5_updated (s : LitOrderState) (e : OrderUpdated) :
    ((litUpdated s e).venue_order_id = e.venue_order_id) ∧
    ((litUpdated s e).venue_order_ids = s.venue_order_ids ++
      (if s.venue_order_id = e.venue_order_id then [] else [s.venue_order_id])) ∧
    ((litUpdated s e).quantity = e.quantity.getD s.quantity) ∧
    ((litUpdated s e).price = e.price.getD s.price) ∧
    ((litUpdated s e).trigger_price = e.trigger_price.getD s.trigger_price) ∧
    ((litUpdated s e).filled_qty = s.filled_qty) ∧
    ((litUpdated s e).leaves_qty = match e.quantity with
      | some q => { value := q.value - s.filled_qty.value, precision := q.precision }
      | none => s.leaves_qty) ∧
    (∀ q : Quantity, e.quantity = some q →
      (litUpdated s e).leaves_qty.value =
        (litUpdated s e).quantity.value - (litUpdated s e).filled_qty.value) := by
  by_cases hv : s.venue_order_id = e.venue_order_id <;>
    cases hq : e.quantity <;> cases hp : e.price <;> cases htp : e.trigger_price <;>
    simp [litUpdated, hv, hq, hp, htp]

/-- Claim C5 witness: an update carrying a new venue id and a new
quantity appends the old id to the history and recomputes the leaves
quantity. -/
theorem claim_C5_updated_witness :
    (litUpdated
        { side := OrderSide.BUY, venue_order_id := some "V-1"
          venue_order_ids := [none]
          quantity := { value := 10, precision := 0 }
          filled_qty := { value := 4, precision := 0 }
          leaves_qty := { value := 6, precision := 0 }
          price := 100, trigger_price := 99, avg_px := 0, slippage := 0 }
        { venue_order_id := some "V-2"
          quantity := some { value := 7, precision := 0 }
          price := none, trigger_price := none
          ts_event := 1 }).venue_order_id = some "V-2" ∧
    (litUpdated
        { side := OrderSide.BUY, venue_order_id := some "V-1"
          venue_order_ids := [none]
          quantity := { value := 10, precision := 0 }
          filled_qty := { value := 4, precision := 0 }
          leaves_qty := { value := 6, precision := 0 }
          price := 100, trigger_price := 99, avg_px := 0, slippage := 0 }
        { venue_order_id := some "V-2"
          quantity := some { value := 7, precision := 0 }
          price := none, trigger_price := none
          ts_event := 1 }).venue_order_ids = [none, some "V-1"] ∧
    (litUpdated
        { side := OrderSide.BUY, venue_order_id := some "V-1"
          venue_order_ids := [none]
          quantity := { value := 10, precision := 0 }
          filled_qty := { value := 4, precision := 0 }
          leaves_qty := { value := 6, precision := 0 }
          price := 100, trigger_price := 99, avg_px := 0, slippage := 0 }
        { venue_order_id := some "V-2"
          quantity := some { value := 7, precision := 0 }
          price := none, trigger_price := none
          ts_event := 1 }).leaves_qty = { value := (7 : ℚ) - 4, precision := 0 } := by
  have hthm := claim_C5_updated
    { side := OrderSide.BUY, venue_order_id := some "V-1"
      venue_order_ids := [none]
      quantity := { value := 10, precision := 0 }
      filled_qty := { value := 4, precision := 0 }
      leaves_qty := { value := 6, precision := 0 }
      price := 100, trigger_price := 99, avg_px := 0, slippage := 0 }
    { venue_order_id := some "V-2"
      quantity := some { value := 7, precision := 0 }
      price := none, trigger_price := none
      ts_event := 1 }
  refine ⟨hthm.1, ?_, ?_⟩
  · have hlist := hthm.2.1
    simpa using hlist
  · exact hthm.2.2.2.2.2.2.1

/-- Rounding an exact integer multiple: `roundHalfEvenInt (m * b) b = m`
for positive `b`. -/
theorem roundHalfEvenInt_mul (m b : Int) (hb : 0 < b) :
    roundHalfEvenInt (m * b) b = m := by
  unfold roundHalfEvenInt
  have hf : (m * b).fdiv b = m := Int.mul_fdiv_cancel m (by omega)
  rw [hf]
  simp [hb]

/-- Evaluation of `litInit` once the trigger-type and display gates
pass: the result is the expire-time gate mapped into the order record. -/
theorem litInit_eval (s : OrderSide) (q : Quantity) (p tp : ℚ)
    (tt : TriggerType) (tif : TimeInForce) (et : Option Int)
    (dq : Option Quantity)
    (htt : tt ≠ TriggerType.NONE) (hdq : displayQtyOk dq q = true) :
    litInit s q p tp tt tif et dq =
      match checkExpire tif et with
      | Except.error e => Except.error e
      | Except.ok ns =>
        Except.ok
          { side := s, quantity := q, price := p, trigger_price := tp
            trigger_type := tt, time_in_force := tif, expire_time := et
            expire_time_ns := ns, display_qty := dq } := by
  unfold litInit
  rw [if_neg htt]
  rcases hce : checkExpire tif et with e | ns <;> simp [hdq]

/-- Evaluation of `litInit` once the trigger-type and expire-time gates
pass: the result is decided by the display-quantity gate. -/
theorem litInit_display_eval (s : OrderSide) (q : Quantity) (p tp : ℚ)
    (tt : TriggerType) (tif : TimeInForce) (et : Option Int)
    (dq : Option Quantity) (ns : Int)
    (htt : tt ≠ TriggerType.NONE) (hce : checkExpire tif et = Except.ok ns) :
    litInit s q p tp tt tif et dq =
      if displayQtyOk dq q then
        Except.ok
          { side := s, quantity := q, price := p, trigger_price := tp
            trigger_type := tt, time_in_force := tif, expire_time := et
            expire_time_ns := ns, display_qty := dq }
      else Except.error "display_qty was negative or greater than order quantity" := by
  unfold litInit
  rw [if_neg htt, hce]

/-- Claim C2: the GTD/expire-time contract of `LimitIfTouchedOrder`
construction: GTD with no expire time (or one at/before the epoch)
fails, a non-GTD time-in-force with an expire time fails, and the result
carries `expire_time_ns > 0` exactly when the time-in-force is GTD with
a valid post-epoch expire time. -/
theorem claim_C2_expire_theorem (s : OrderSide) (q : Quantity) (p tp : ℚ)
    (tt : TriggerType) (tif : TimeInForce) (et : Option Int)
    (dq : Option Quantity)
    (htt : tt ≠ TriggerType.NONE) (hdq : displayQtyOk dq q = true) :
    (tif = TimeInForce.GTD → et = none →
      isOkE (litInit s q p tp tt tif et dq) = false) ∧
    (∀ t : Int, tif = TimeInForce.GTD → et = some t → t ≤ 0 →
      isOkE (litInit s q p tp tt tif et dq) = false) ∧
    (tif ≠ TimeInForce.GTD → ∀ t : Int, et = some t →
      isOkE (litInit s q p tp tt tif et dq) = false) ∧
    ((∃ o : LitOrder, litInit s q p tp tt tif et dq = Except.ok o ∧
        0 < o.expire_time_ns) ↔
      (tif = TimeInForce.GTD ∧ ∃ t : Int, et = some t ∧ 0 < t)) := by
  refine ⟨?_, ?_, ?_, ?_⟩
  · intro hg hnone
    subst hg
    subst hnone
    rw [litInit_eval _ _ _ _ _ _ _ _ htt hdq]
    simp [checkExpire, isOkE]
  · intro t hg hsome hle
    subst hg
    subst hsome
    have hnp : ¬ (0 < t) := by omega
    rw [litInit_eval _ _ _ _ _ _ _ _ htt hdq]
    simp [checkExpire, isOkE, hnp]
  · intro hne t hsome
    subst hsome
    rw [litInit_eval _ _ _ _ _ _ _ _ htt hdq]
    simp [checkExpire, isOkE, hne]
  · constructor
    · rintro ⟨o, ho, hons⟩
      rw [litInit_eval _ _ _ _ _ _ _ _ htt hdq] at ho
      rcases hce : checkExpire tif et with e | ns
      · rw [hce] at ho
        simp at ho
      · rw [hce] at ho
        injection ho with ho2
        subst ho2
        have hns : 0 < ns := hons
        unfold checkExpire at hce
        by_cases hg : tif = TimeInForce.GTD
        · rw [if_pos hg] at hce
          cases et with
          | none => simp at hce
          | some t =>
            refine ⟨hg, t, rfl, ?_⟩
            by_cases hpos : 0 < t
            · exact hpos
            · simp [hpos] at hce
        · rw [if_neg hg] at hce
          cases et with
          | some t => simp at hce
          | none =>
            simp at hce
            omega
    · rintro ⟨hg, t, hsome, hpos⟩
      subst hg
      subst hsome
      rw [litInit_eval _ _ _ _ _ _ _ _ htt hdq]
      simp [checkExpire, hpos]

/-- Claim C2 witness: GTD without expire time fails, GTD with an
epoch-or-earlier expire time fails, a non-GTD expire time fails, and
GTD with nanosecond image 5 succeeds carrying `expire_time_ns = 5`. -/
theorem claim_C2_expire_witness :
    isOkE (litInit OrderSide.BUY { value := 1, precision := 0 } 100 99
      TriggerType.LAST TimeInForce.GTD none none) = false ∧
    isOkE (litInit OrderSide.BUY { value := 1, precision := 0 } 100 99
      TriggerType.LAST TimeInForce.GTD (some 0) none) = false ∧
    isOkE (litInit OrderSide.BUY { value := 1, precision := 0 } 100 99
      TriggerType.LAST TimeInForce.GTC (some 5) none) = false ∧
    litInit OrderSide.BUY { value := 1, precision := 0 } 100 99
      TriggerType.LAST TimeInForce.GTD (some 5) none =
      Except.ok
        { side := OrderSide.BUY, quantity := { value := 1, precision := 0 }
          price := 100, trigger_price := 99, trigger_type := TriggerType.LAST
          time_in_force := TimeInForce.GTD, expire_time := some 5
          expire_time_ns := 5, display_qty := none } := by
  have h1 := claim_C2_expire_theorem OrderSide.BUY { value := 1, precision := 0 }
    100 99 TriggerType.LAST TimeInForce.GTD none none (by decide) (by decide)
  have h2 := claim_C2_expire_theorem OrderSide.BUY { value := 1, precision := 0 }
    100 99 TriggerType.LAST TimeInForce.GTD (some 0) none (by decide) (by decide)
  have h3 := claim_C2_expire_theorem OrderSide.BUY { value := 1, precision := 0 }
    100 99 TriggerType.LAST TimeInForce.GTC (some 5) none (by decide) (by decide)
  exact ⟨h1.1 rfl rfl, h2.2.1 0 rfl rfl (by omega),
    h3.2.2.1 (by decide) 5 rfl, by decide⟩

/-- Claim C3: with the other gates passing, construction with a present
`display_qty` fails exactly when it is negative or exceeds the order
quantity, and succeeds exactly when `0 <= display_qty <= quantity`. -/
theorem claim_C3_display_theorem (s : OrderSide) (q : Quantity) (p tp : ℚ)
    (tt : TriggerType) (tif : TimeInForce) (et : Option Int) (d : Quantity)
    (htt : tt ≠ TriggerType.NONE)
    (hexp : isOkE (checkExpire tif et) = true) :
    (isOkE (litInit s q p tp tt tif et (some d)) = false ↔
      (d.value < 0 ∨ q.value < d.value)) ∧
    (isOkE (litInit s q p tp tt tif et (some d)) = true ↔
      (0 ≤ d.value ∧ d.value ≤ q.value)) := by
  rcases hce : checkExpire tif et with e | ns
  · rw [hce] at hexp
    simp [isOkE] at hexp
  · rw [litInit_display_eval _ _ _ _ _ _ _ _ ns htt hce]
    rcases lt_or_le d.value 0 with hneg | h0
    · have hgate : displayQtyOk (some d) q = false := by
        simp [displayQtyOk, not_le.mpr hneg]
      rw [hgate]
      simp [isOkE]
      exact ⟨Or.inl hneg, fun h0' => absurd hneg (not_lt.mpr h0')⟩
    · rcases lt_or_le q.value d.value with hgt | hle
      · have hgate : displayQtyOk (some d) q = false := by
          simp [displayQtyOk, not_le.mpr hgt]
        rw [hgate]
        simp [isOkE]
        exact ⟨Or.inr hgt, fun _ => hgt⟩
      · have hgate : displayQtyOk (some d) q = true := by
          simp [displayQtyOk, h0, hle]
        rw [hgate]
        simp [isOkE]
        exact ⟨h0, hle⟩

/-- Claim C3 witness: with quantity 5, `display_qty = 6` fails while
`display_qty = 0` and `display_qty = 5` both succeed. -/
theorem claim_C3_display_witness :
    isOkE (litInit OrderSide.BUY { value := 5, precision := 0 } 100 99
      TriggerType.LAST TimeInForce.GTC none
      (some { value := 6, precision := 0 })) = false ∧
    isOkE (litInit OrderSide.BUY { value := 5, precision := 0 } 100 99
      TriggerType.LAST TimeInForce.GTC none
      (some { value := 0, precision := 0 })) = true ∧
    isOkE (litInit OrderSide.BUY { value := 5, precision := 0 } 100 99
      TriggerType.LAST TimeInForce.GTC none
      (some { value := 5, precision := 0 })) = true := by
  have h1 := claim_C3_display_theorem OrderSide.BUY { value := 5, precision := 0 }
    100 99 TriggerType.LAST TimeInForce.GTC none { value := 6, precision := 0 }
    (by decide) (by decide)
  have h2 := claim_C3_display_theorem OrderSide.BUY { value := 5, precision := 0 }
    100 99 TriggerType.LAST TimeInForce.GTC none { value := 0, precision := 0 }
    (by decide) (by decide)
  have h3 := claim_C3_display_theorem OrderSide.BUY { value := 5, precision := 0 }
    100 99 TriggerType.LAST TimeInForce.GTC none { value := 5, precision := 0 }
    (by decide) (by decide)
  exact ⟨h1.1.mpr (by right; decide), h2.2.mpr (by constructor <;> decide),
    h3.2.mpr (by constructor <;> decide)⟩

/-- Claim C6 counterexample: the price factory returns `Decimal`s, whose
equality is numeric: `Price.create(1.0, 1)` and `Price.create(1.0, 2)`
compare equal despite their different precisions, refuting the claimed
inequality of logically-equal values at different precisions. -/
theorem claim_C6_price_cex :
    priceCreate 1 1 = Except.ok { unscaled := 10, scale := 1 } ∧
    priceCreate 1 2 = Except.ok { unscaled := 100, scale := 2 } ∧
    decBeq { unscaled := 10, scale := 1 } { unscaled := 100, scale := 2 } = true ∧
    ({ unscaled := 10, scale := 1 } : Dec).scale ≠
      ({ unscaled := 100, scale := 2 } : Dec).scale := by
  exact ⟨by decide, by decide, by decide, by decide⟩

/-- Claim C6 (corrected): equality (and the numeric hash) of the values
produced by the price factory is determined by the numeric value alone,
not by the (value, precision) pair: `decBeq` holds iff the numeric
values agree, equal values hash equal, and one exact value constructed
at two precisions yields equal (though differently-scaled) decimals. -/
theorem claim_C6_price_amended :
    (∀ a b : Dec, decBeq a b = true ↔ decVal a = decVal b) ∧
    (∀ a b : Dec, decBeq a b = true → decHash a = decHash b) ∧
    (∀ (v : ℚ) (d1 d2 : Nat) (m1 m2 : Int), 0 < v →
      v.num * ((10 ^ d1 : Nat) : Int) = m1 * (v.den : Int) →
      v.num * ((10 ^ d2 : Nat) : Int) = m2 * (v.den : Int) →
      priceCreate v d1 = Except.ok { unscaled := m1, scale := d1 } ∧
      priceCreate v d2 = Except.ok { unscaled := m2, scale := d2 } ∧
      decBeq { unscaled := m1, scale := d1 } { unscaled := m2, scale := d2 } = true) := by
  have hval : ∀ a b : Dec, decBeq a b = true ↔ decVal a = decVal b := by
    intro a b
    unfold decBeq decVal
    rw [decide_eq_true_iff]
    rw [div_eq_div_iff (by positivity) (by positivity)]
    constructor
    · intro hx
      exact_mod_cast congrArg (Int.cast : Int → ℚ) hx
    · intro hx
      exact_mod_cast hx
  refine ⟨hval, ?_, ?_⟩
  · intro a b hab
    unfold decHash
    rw [(hval a b).mp hab]
  · intro v d1 d2 m1 m2 hv h1 h2
    have hden : (0 : Int) < (v.den : Int) := by exact_mod_cast v.pos
    have hmk : ∀ (d : Nat) (m : Int),
        v.num * ((10 ^ d : Nat) : Int) = m * (v.den : Int) →
        priceCreate v d = Except.ok { unscaled := m, scale := d } := by
      intro d m hm
      unfold priceCreate
      rw [if_pos hv, hm, roundHalfEvenInt_mul m (v.den : Int) hden]
    refine ⟨hmk d1 m1 h1, hmk d2 m2 h2, ?_⟩
    unfold decBeq
    rw [decide_eq_true_iff]
    have hcast : ∀ d : Nat, ((10 ^ d : Nat) : Int) = (10 : Int) ^ d := by
      intro d
      push_cast
      ring
    rw [hcast] at h1 h2
    have hcalc : m1 * (v.den : Int) * (10 : Int) ^ d2 =
        m2 * (v.den : Int) * (10 : Int) ^ d1 := by
      rw [← h1, ← h2]
      ring
    have hden' : (v.den : Int) ≠ 0 := by omega
    apply mul_right_cancel₀ hden'
    calc m1 * (10 : Int) ^ d2 * (v.den : Int)
        = m1 * (v.den : Int) * (10 : Int) ^ d2 := by ring
      _ = m2 * (v.den : Int) * (10 : Int) ^ d1 := hcalc
      _ = m2 * (10 : Int) ^ d1 * (v.den : Int) := by ring

/-- Claim C6 witness: the exactness hypotheses hold for value 1 at
precisions 1 and 2; applying the equality characterization gives the
numeric-equality and hash facts for the two constructed decimals. -/
theorem claim_C6_price_witness :
    (priceCreate 1 1 = Except.ok { unscaled := 10, scale := 1 } ∧
      priceCreate 1 2 = Except.ok { unscaled := 100, scale := 2 } ∧
      decBeq { unscaled := 10, scale := 1 } { unscaled := 100, scale := 2 } = true) ∧
    decVal { unscaled := 10, scale := 1 } = decVal { unscaled := 100, scale := 2 } ∧
    decHash { unscaled := 10, scale := 1 } = decHash { unscaled := 100, scale := 2 } := by
  have hmain := claim_C6_price_amended
  have h3 := hmain.2.2 1 1 2 10 100 (by decide) (by decide) (by decide)
  exact ⟨h3, (hmain.1 _ _).mp h3.2.2, hmain.2.1 _ _ h3.2.2⟩

/-- Splitting never yields an empty segment list. -/
theorem splitOnChar_ne_nil (sep : Char) (l : List Char) :
    splitOnChar sep l ≠ [] := by
  induction l with
  | nil => simp [splitOnChar]
  | cons c cs ih =>
    unfold splitOnChar
    rcases hsp : splitOnChar sep cs with _ | ⟨h, t⟩
    · exact absurd hsp ih
    · by_cases hc : c = sep <;> simp [hc]

/-- A separator-free list splits into a single segment. -/
theorem splitOnChar_no_sep (sep : Char) (l : List Char) (hl : sep ∉ l) :
    splitOnChar sep l = [l] := by
  induction l with
  | nil => rfl
  | cons c cs ih =>
    have hc : ¬ (c = sep) := fun h => hl (by simp [h])
    have hcs : sep ∉ cs := fun h => hl (List.mem_cons_of_mem _ h)
    simp [splitOnChar, ih hcs, hc]

/-- Splitting peels off a separator-free prefix before a separator. -/
theorem splitOnChar_append (sep : Char) (a b : List Char) (ha : sep ∉ a) :
    splitOnChar sep (a ++ sep :: b) = a :: splitOnChar sep b := by
  induction a with
  | nil =>
    rcases hsp : splitOnChar sep b with _ | ⟨h, t⟩
    · exact absurd hsp (splitOnChar_ne_nil sep b)
    · simp [splitOnChar, hsp]
  | cons c cs ih =>
    have hc : ¬ (c = sep) := fun h => ha (by simp [h])
    have hcs : sep ∉ cs := fun h => ha (List.mem_cons_of_mem _ h)
    simp only [List.cons_append]
    rw [splitOnChar]
    rw [ih hcs]
    simp [hc]

/-- Reading a concatenation of digit strings accumulates. -/
theorem charsToNatAux_append (l1 l2 : List Char) (acc : Nat) :
    charsToNatAux acc (l1 ++ l2) =
      (charsToNatAux acc l1).bind (fun m => charsToNatAux m l2) := by
  induction l1 generalizing acc with
  | nil => simp [charsToNatAux]
  | cons c cs ih =>
    rcases hcd : charToDigit c with _ | d <;>
      simp [charsToNatAux, hcd, ih]

/-- The digit characters read back to their values. -/
theorem charToDigit_digitChar (m : Nat) (hm : m < 10) :
    charToDigit (Nat.digitChar m) = some m := by
  interval_cases m <;> decide

/-- Digit characters are in the ASCII range 48..57. -/
theorem digitChar_range (m : Nat) (hm : m < 10) :
    48 ≤ (Nat.digitChar m).toNat ∧ (Nat.digitChar m).toNat ≤ 57 := by
  interval_cases m <;> decide

/-- Every character of a rendered natural number is an ASCII digit. -/
theorem natToCharsAux_range (fuel : Nat) :
    ∀ n c, n < fuel → c ∈ natToCharsAux fuel n →
      48 ≤ c.toNat ∧ c.toNat ≤ 57 := by
  induction fuel with
  | zero => intro n c hn; omega
  | succ f ih =>
    intro n c hn hmem
    by_cases h10 : n < 10
    · simp [natToCharsAux, h10] at hmem
      subst hmem
      exact digitChar_range n h10
    · simp [natToCharsAux, h10] at hmem
      rcases hmem with hmem | hmem
      · exact ih (n / 10) c (by omega) hmem
      · subst hmem
        exact digitChar_range (n % 10) (by omega)

/-- A rendered natural number is never empty. -/
theorem natToCharsAux_ne_nil (fuel n : Nat) (hn : n < fuel) :
    natToCharsAux fuel n ≠ [] := by
  cases fuel with
  | zero => omega
  | succ f =>
    by_cases h10 : n < 10 <;> simp [natToCharsAux, h10]

/-- Reading back a rendered natural number under an accumulator. -/
theorem charsToNatAux_natToCharsAux (fuel : Nat) :
    ∀ n acc, n < fuel →
      charsToNatAux acc (natToCharsAux fuel n) =
        some (acc * 10 ^ (natToCharsAux fuel n).length + n) := by
  induction fuel with
  | zero => intro n acc hn; omega
  | succ f ih =>
    intro n acc hn
    by_cases h10 : n < 10
    · simp [natToCharsAux, h10, charsToNatAux, charToDigit_digitChar n h10]
    · have hrec : n / 10 < f := by omega
      simp only [natToCharsAux, h10, if_false]
      rw [charsToNatAux_append, ih (n / 10) acc hrec]
      simp only [Option.bind]
      simp only [charsToNatAux, charToDigit_digitChar (n % 10) (by omega)]
      simp only [List.length_append, List.length_cons, List.length_nil]
      have harith :
          (acc * 10 ^ (natToCharsAux f (n / 10)).length + n / 10) * 10 + n % 10 =
            acc * 10 ^ ((natToCharsAux f (n / 10)).length + (0 + 1)) + n := by
        have hmod : n / 10 * 10 + n % 10 = n := by omega
        have hexp : (10 : Nat) ^ ((natToCharsAux f (n / 10)).length + (0 + 1)) =
            10 ^ (natToCharsAux f (n / 10)).length * 10 := by
          rw [pow_succ]
        rw [hexp]
        calc (acc * 10 ^ (natToCharsAux f (n / 10)).length + n / 10) * 10 + n % 10
            = acc * (10 ^ (natToCharsAux f (n / 10)).length * 10) +
                (n / 10 * 10 + n % 10) := by ring
          _ = acc * (10 ^ (natToCharsAux f (n / 10)).length * 10) + n := by rw [hmod]
      rw [harith]

/-- Round trip of decimal rendering and reading. -/
theorem charsToNat_natToChars (n : Nat) : charsToNat (natToChars n) = some n := by
  unfold charsToNat natToChars
  rw [if_neg (natToCharsAux_ne_nil (n + 1) n (by omega))]
  rw [charsToNatAux_natToCharsAux (n + 1) n 0 (by omega)]
  simp

/-- The dash separator never occurs among rendered digits. -/
theorem natToChars_no_dash (n : Nat) : '-' ∉ natToChars n := by
  intro hmem
  have hr := natToCharsAux_range (n + 1) n _ (by omega) hmem
  have h45 : ('-').toNat = 45 := rfl
  omega

/-- Resolution names avoid the delimiter characters. -/
theorem resolutionName_delims (r : Resolution) :
    '-' ∉ (resolutionName r).data ∧ '[' ∉ (resolutionName r).data := by
  cases r <;> decide

/-- Quote-type names avoid the delimiter characters. -/
theorem quoteTypeName_delims (q : QuoteType) :
    '-' ∉ (quoteTypeName q).data ∧ '[' ∉ (quoteTypeName q).data := by
  cases q <;> decide

/-- Resolution names round-trip through the name lookup. -/
theorem resolutionFromName_name (r : Resolution) :
    resolutionFromName (resolutionName r) = some r := by
  cases r <;> decide

/-- Quote-type names round-trip through the name lookup. -/
theorem quoteTypeFromName_name (q : QuoteType) :
    quoteTypeFromName (quoteTypeName q) = some q := by
  cases q <;> decide

/-- Rebuilding a string from its characters is the identity. -/
theorem strMk_data (s : String) : String.mk s.data = s := rfl

/-- The character list of the formatted bar type string. -/
theorem formatBarType_data (bt : BarType) :
    (formatBarType bt).data =
      (bt.symbol.code.data ++ '.' :: bt.symbol.venue.name.data) ++ '-' ::
        (natToChars bt.period ++ '-' ::
          ((resolutionName bt.resolution).data ++ '[' ::
            ((quoteTypeName bt.quote_type).data ++ [']']))) := by
  simp [formatBarType, symbolStr, String.data_append]

/-- Claim C7 counterexample: the string the code produces for a concrete
bar type is `"AUDUSD.FXCM-1-MINUTE[BID]"`, which is not of the claimed
canonical five-field form `"<InstrumentId>-<step>-<aggregation>-
<price_type>-<source>"` (which that predicate does accept). -/
theorem claim_C7_format_cex :
    formatBarType
        { symbol := { code := "AUDUSD", venue := { name := "FXCM" } }
          period := 1, resolution := Resolution.MINUTE
          quote_type := QuoteType.BID } = "AUDUSD.FXCM-1-MINUTE[BID]" ∧
    isSpecCanonicalForm "AUDUSD.FXCM-1-MINUTE[BID]" = false ∧
    isSpecCanonicalForm "AUDUSD.FXCM-1-MINUTE-BID-EXTERNAL" = true := by
  exact ⟨by decide, by decide, by decide⟩

/-- Claim C7 (corrected): `BarType.__str__` produces
`"<CODE>.<VENUE>-<period>-<RESOLUTION>[<QUOTETYPE>]"`, not the spec's
five-dash-field form; the source has no parser, and parsing modelled
from the spec as the exact inverse of the format actually produced
satisfies `parse (format bt) = some bt` for every bar type whose period
is positive and whose symbol code and venue name avoid the delimiter
characters `'-'` and `'.'`. -/
theorem claim_C7_roundtrip (bt : BarType)
    (hp : 0 < bt.period)
    (hc1 : '-' ∉ bt.symbol.code.data) (hc2 : '.' ∉ bt.symbol.code.data)
    (hv1 : '-' ∉ bt.symbol.venue.name.data)
    (hv2 : '.' ∉ bt.symbol.venue.name.data) :
    parseBarType (formatBarType bt) = some bt := by
  unfold parseBarType
  rw [formatBarType_data]
  unfold parseBarTypeChars
  have hsym : '-' ∉ bt.symbol.code.data ++ '.' :: bt.symbol.venue.name.data := by
    intro hmem
    rcases List.mem_append.mp hmem with hmem | hmem
    · exact hc1 hmem
    · rcases List.mem_cons.mp hmem with hmem | hmem
      · exact absurd hmem (by decide)
      · exact hv1 hmem
  have htail : '-' ∉ (resolutionName bt.resolution).data ++ '[' ::
      ((quoteTypeName bt.quote_type).data ++ [']']) := by
    intro hmem
    rcases List.mem_append.mp hmem with hmem | hmem
    · exact (resolutionName_delims bt.resolution).1 hmem
    · rcases List.mem_cons.mp hmem with hmem | hmem
      · exact absurd hmem (by decide)
      · rcases List.mem_append.mp hmem with hmem | hmem
        · exact (quoteTypeName_delims bt.quote_type).1 hmem
        · simp at hmem
  have hqt : '[' ∉ (quoteTypeName bt.quote_type).data ++ [']'] := by
    intro hmem
    rcases List.mem_append.mp hmem with hmem | hmem
    · exact (quoteTypeName_delims bt.quote_type).2 hmem
    · simp at hmem
  rw [splitOnChar_append '-' _ _ hsym]
  rw [splitOnChar_append '-' _ _ (natToChars_no_dash bt.period)]
  rw [splitOnChar_no_sep '-' _ htail]
  simp only [charsToNat_natToChars,
    splitOnChar_append '.' bt.symbol.code.data bt.symbol.venue.name.data hc2,
    splitOnChar_no_sep '.' bt.symbol.venue.name.data hv2,
    splitOnChar_append '[' (resolutionName bt.resolution).data
      ((quoteTypeName bt.quote_type).data ++ [']'])
      (resolutionName_delims bt.resolution).2,
    splitOnChar_no_sep '[' ((quoteTypeName bt.quote_type).data ++ [']']) hqt,
    List.getLast?_concat, List.dropLast_concat, strMk_data,
    resolutionFromName_name, quoteTypeFromName_name, hp, if_true, reduceIte]

/-- Claim C7 witness: the concrete round trip for
`AUDUSD.FXCM / period 1 / MINUTE / BID`. -/
theorem claim_C7_roundtrip_witness :
    parseBarType
        (formatBarType
          { symbol := { code := "AUDUSD", venue := { name := "FXCM" } }
            period := 1, resolution := Resolution.MINUTE
            quote_type := QuoteType.BID }) =
      some
        { symbol := { code := "AUDUSD", venue := { name := "FXCM" } }
          period := 1, resolution := Resolution.MINUTE
          quote_type := QuoteType.BID } :=
  claim_C7_roundtrip _ (by decide) (by decide) (by decide) (by decide) (by decide)

end Nautilus
